import Mathlib

/-!
Verification of the MoverSummaryPipeline
(`src/summarization/why_it_moves_simple.py`).

The pipeline is embedded shallowly: Python dicts for articles and summary
records become Lean structures, the four external collaborators
(article-text extraction, NLP batch condensation, per-article summarizer,
aggregate summarizer) become fields of an `Env` record, each returning
`Except String _` so that a raised exception is an `Except.error`.  The
filesystem read in `get_news_articles` is a function from symbol to an
optional load result (`none` models a missing cache file, `Except.error`
models a load failure).  Machine floats for the change percentage are
modelled by rationals, which share the exact order behaviour the code
relies on (comparison with zero).
-/

namespace NLPStock

/-- Sentinel string returned by the extraction collaborator on failure
(`"Full article text not found."` in the source). -/
def sentinel : String := "Full article text not found."

/-- Fallback summary text used by the no-news and no-usable-text branches. -/
def noNewsText : String :=
  "There are no news currently affecting the stock price, fluctuations might be due to market conditions."

/-- Fallback summary text of the no-valid-summaries branch. -/
def noValidText : String := "No valid article summaries could be generated."

/-- Fallback summary text of the caught-exception branch. -/
def errorText : String := "There was an error generating the summary."

/-- An article mapping: `url` / `link` / `full_article_text` /
`condensed_text` keys, each possibly absent (`none`). -/
structure Article where
  url : Option String
  link : Option String
  full_article_text : Option String
  condensed_text : Option String
deriving DecidableEq, Repr

/-- The summary record built by `process_company_data`:
keys `symbol`, `exchange`, `type`, optional `period`, `summary`. -/
structure SummaryRecord where
  symbol : String
  exchange : String
  type : String
  period : Option String
  summary : String
deriving DecidableEq, Repr

/-- The four external collaborators.  Each may raise (model: `Except.error`). -/
structure Env where
  extract_article_text : String → Except String String
  process_articles_batch : List Article → String → String → Except String (List Article)
  summarize_article : String → String → String → Except String String
  summarize_articles : List String → String → Except String String

/-- Line 33: `direction = "up" if classification == "gainer" else "down" if
classification == "loser" else "neutral"`. -/
def direction (classification : String) : String :=
  if classification = "gainer" then "up"
  else if classification = "loser" then "down"
  else "neutral"

/-- Line 50: `"full_article_text" in article and article["full_article_text"]
and article["full_article_text"] != "Full article text not found."`.
Key presence is `Option.isSome`; string truthiness is non-emptiness. -/
def hasUsableText (a : Article) : Bool :=
  match a.full_article_text with
  | none => false
  | some t => t != "" && t != sentinel

/-- Line 55: `article.get("url", article.get("link", ""))` — the `url` value
if the key is present (even empty), else the `link` value, else `""`. -/
def getUrl (a : Article) : String :=
  a.url.getD (a.link.getD "")

/-- One iteration of the extraction loop (lines 48-60): keep an article with
usable text (counting it), otherwise extract from its url when non-empty,
store the result in `full_article_text`, and count it usable whenever the
extracted text differs from the sentinel (an empty extraction counts). -/
def processArticleText (env : Env) (a : Article) : Except String (Article × Nat) :=
  if hasUsableText a then .ok (a, 1)
  else
    let url := getUrl a
    if url = "" then .ok (a, 0)
    else
      match env.extract_article_text url with
      | .error e => .error e
      | .ok t =>
        .ok ({ a with full_article_text := some t }, if t = sentinel then 0 else 1)

/-- The whole extraction loop (lines 46-60): updated article list plus the
`articles_with_text` counter; an extraction exception aborts the loop and
propagates (the loop is outside the `try` of lines 73-119). -/
def extractLoop (env : Env) : List Article → Except String (List Article × Nat)
  | [] => .ok ([], 0)
  | a :: rest =>
    match processArticleText env a with
    | .error e => .error e
    | .ok (a2, c) =>
      match extractLoop env rest with
      | .error e => .error e
      | .ok (rest2, crest) => .ok (a2 :: rest2, c + crest)

/-- Lines 82-96: for each processed article with non-empty `condensed_text`,
call the per-article summarizer and keep non-empty results, in order. -/
def summariesLoop (env : Env) (symbol dir : String) : List Article → Except String (List String)
  | [] => .ok []
  | a :: rest =>
    let condensed := a.condensed_text.getD ""
    if condensed = "" then summariesLoop env symbol dir rest
    else
      match env.summarize_article condensed symbol dir with
      | .error e => .error e
      | .ok s =>
        match summariesLoop env symbol dir rest with
        | .error e => .error e
        | .ok srest => .ok ((if s = "" then [] else [s]) ++ srest)

/-- Body of the `try` block (lines 73-110): NLP batch condensation, the
per-article summary loop, the redundant non-empty filter of line 98, the
no-valid-summaries fallback (with `period: "day"`, lines 101-107), and the
aggregate success record without a `period` key (line 110). -/
def trySummarize (env : Env) (symbol exchange classification dir : String)
    (articles : List Article) : Except String SummaryRecord :=
  match env.process_articles_batch articles symbol symbol with
  | .error e => .error e
  | .ok processed =>
    match summariesLoop env symbol dir processed with
    | .error e => .error e
    | .ok summaries0 =>
      let summaries := summaries0.filter (fun s => s != "")
      if summaries.isEmpty then
        .ok { symbol := symbol, exchange := exchange, type := classification,
              period := some "day", summary := noValidText }
      else
        match env.summarize_articles summaries symbol with
        | .error e => .error e
        | .ok explanation =>
          .ok { symbol := symbol, exchange := exchange, type := classification,
                period := none, summary := explanation }

/-- Embedding of `process_company_data` (lines 31-119).  The empty-list and
zero-usable-text branches return the neutral fallback with `period: "day"`;
an exception inside the `try` block becomes the error fallback record
(also carrying `period: "day"` in the source, lines 113-119); an exception
in the extraction loop propagates, since that loop precedes the `try`. -/
def process_company_data (env : Env) (symbol exchange : String)
    (news_articles : List Article) (classification : String) :
    Except String SummaryRecord :=
  let dir := direction classification
  if news_articles.isEmpty then
    .ok { symbol := symbol, exchange := exchange, type := classification,
          period := some "day", summary := noNewsText }
  else
    match extractLoop env news_articles with
    | .error e => .error e
    | .ok (updated, articles_with_text) =>
      if articles_with_text = 0 then
        .ok { symbol := symbol, exchange := exchange, type := classification,
              period := some "day", summary := noNewsText }
      else
        match trySummarize env symbol exchange classification dir updated with
        | .ok r => .ok r
        | .error _ =>
          .ok { symbol := symbol, exchange := exchange, type := classification,
                period := some "day", summary := errorText }

/-- Embedding of `classify_company` (lines 121-126); the float change
percentage is modelled by a rational. -/
def classify_company (net_change_percentage : ℚ) : String :=
  if net_change_percentage > 0 then "gainer" else "loser"

/-- Embedding of `get_news_articles` (lines 16-29).  `fs symbol = none`
models a missing cache file, `some (Except.error m)` a load failure, and
`some (Except.ok articles)` a successful load; the code keeps the first
five articles when more are cached. -/
def get_news_articles (fs : String → Option (Except String (List Article)))
    (symbol : String) : List Article :=
  match fs symbol with
  | none => []
  | some (.error _) => []
  | some (.ok articles) =>
    if articles.length > 5 then articles.take 5 else articles

/-- A UTC wall-clock instant as produced by `datetime.now(timezone.utc)`:
the fields the `isoformat` rendering uses. -/
structure UTCDateTime where
  year : Nat
  month : Nat
  day : Nat
  hour : Nat
  minute : Nat
  second : Nat
  microsecond : Nat
deriving DecidableEq, Repr

/-- Decimal digit character for `n % 10`. -/
def digitChar (n : Nat) : Char := Char.ofNat (48 + n % 10)

/-- Two-digit zero-padded decimal rendering (months, days, hours, …). -/
def pad2 (n : Nat) : List Char := [digitChar (n / 10), digitChar n]

/-- Four-digit zero-padded decimal rendering (years). -/
def pad4 (n : Nat) : List Char :=
  [digitChar (n / 1000), digitChar (n / 100), digitChar (n / 10), digitChar n]

/-- Six-digit zero-padded decimal rendering (microseconds). -/
def pad6 (n : Nat) : List Char :=
  [digitChar (n / 100000), digitChar (n / 10000), digitChar (n / 1000),
   digitChar (n / 100), digitChar (n / 10), digitChar n]

/-- The UTC offset suffix `+00:00` appended by `isoformat` for
`timezone.utc`-aware datetimes. -/
def tzChars : List Char := ['+', '0', '0', ':', '0', '0']

/-- Fractional-second part of `isoformat`: omitted when the microsecond
field is zero, else a dot followed by six digits. -/
def microChars (u : Nat) : List Char :=
  if u = 0 then tzChars else '.' :: (pad6 u ++ tzChars)

/-- Character sequence of `datetime.isoformat()` for a UTC-aware instant:
`YYYY-MM-DDTHH:MM:SS[.ffffff]+00:00`. -/
def isoformatChars (t : UTCDateTime) : List Char :=
  pad4 t.year ++ '-' :: (pad2 t.month ++ '-' :: (pad2 t.day ++
    'T' :: (pad2 t.hour ++ ':' :: (pad2 t.minute ++ ':' :: (pad2 t.second ++
      microChars t.microsecond)))))

/-- Model of `datetime.now(timezone.utc).isoformat()` (line 136). -/
def isoformat (t : UTCDateTime) : String := String.mk (isoformatChars t)

/-- A decimal digit character. -/
def isDigitCh (c : Char) : Bool := '0' ≤ c && c ≤ '9'

/-- Recognizer for the tail of an ISO-8601 UTC timestamp after the seconds:
either the bare `+00:00` offset or a six-digit fraction followed by it. -/
def checkTail : List Char → Bool
  | ['+', '0', '0', ':', '0', '0'] => true
  | '.' :: u1 :: u2 :: u3 :: u4 :: u5 :: u6 ::
      ['+', '0', '0', ':', '0', '0'] =>
    [u1, u2, u3, u4, u5, u6].all isDigitCh
  | _ => false

/-- Recognizer for an ISO-8601 UTC timestamp
`YYYY-MM-DDTHH:MM:SS[.ffffff]+00:00`. -/
def checkISO : List Char → Bool
  | y1 :: y2 :: y3 :: y4 :: '-' :: m1 :: m2 :: '-' :: d1 :: d2 ::
      'T' :: h1 :: h2 :: ':' :: n1 :: n2 :: ':' :: s1 :: s2 :: rest =>
    [y1, y2, y3, y4, m1, m2, d1, d2, h1, h2, n1, n2, s1, s2].all isDigitCh
      && checkTail rest
  | _ => false

/-- A string is an ISO-8601 UTC timestamp when its characters are. -/
def isISO8601UTC (s : String) : Bool := checkISO s.data

/-- The record built by `why_it_moves` (lines 133-137): the
`process_company_data` record with `daily_change_percentage` and
`date_generated` stamped on (neither key exists on the base record, so the
dict merge adds them without overwriting). -/
structure MoverRecord where
  symbol : String
  exchange : String
  type : String
  period : Option String
  summary : String
  daily_change_percentage : ℚ
  date_generated : String
deriving DecidableEq, Repr

/-- Output path `STOCK_DB/movers/<symbol>_summary.json` (lines 140-141). -/
def outputPath (symbol : String) : String :=
  "STOCK_DB/movers/" ++ symbol ++ "_summary.json"

/-- Embedding of `why_it_moves` (lines 128-145): classify, load news, build
the summary, stamp the change percentage and the ISO timestamp, and persist;
the result pairs the returned record with the path it is saved to (the file
content written by `save_json` is exactly the record). -/
def why_it_moves (env : Env) (fs : String → Option (Except String (List Article)))
    (now : UTCDateTime) (symbol exchange : String)
    (daily_change_percentage : ℚ) : Except String (MoverRecord × String) :=
  let classification := classify_company daily_change_percentage
  let news_articles := get_news_articles fs symbol
  match process_company_data env symbol exchange news_articles classification with
  | .error e => .error e
  | .ok base =>
    .ok ({ symbol := base.symbol, exchange := base.exchange, type := base.type,
           period := base.period, summary := base.summary,
           daily_change_percentage := daily_change_percentage,
           date_generated := isoformat now },
         outputPath symbol)

/-- Left-to-right, non-overlapping removal of every occurrence of `_news`,
the `str.replace("_news", "")` of line 161. -/
def removeNews : List Char → List Char
  | '_' :: 'n' :: 'e' :: 'w' :: 's' :: rest => removeNews rest
  | c :: rest => c :: removeNews rest
  | [] => []

/-- Symbol derivation of line 161: the file stem (the name of a
`*_news.json` file without its `.json` extension) with `_news` removed. -/
def symbolOfFile (name : String) : String :=
  String.mk (removeNews (name.data.take (name.data.length - 5)))

/-- Embedding of `process_all_stocks` (lines 147-183): per news file, derive
the symbol, fix the exchange to `NASDAQ`, draw the placeholder change
percentage, and run `why_it_moves`; the `try` of lines 158-183 wraps the
whole loop body, so a failure is logged and the loop continues with the
remaining files.  The result lists, in order, each successful file with its
record and output path. -/
def process_all_stocks (env : Env)
    (fs : String → Option (Except String (List Article)))
    (now : UTCDateTime) (rng : String → ℚ) :
    List String → List (String × MoverRecord × String)
  | [] => []
  | f :: rest =>
    match why_it_moves env fs now (symbolOfFile f) "NASDAQ" (rng f) with
    | .ok (r, p) => (f, r, p) :: process_all_stocks env fs now rng rest
    | .error _ => process_all_stocks env fs now rng rest

/-- The neutral-market fallback record (lines 38-44 and 65-71). -/
def neutralFallback (symbol exchange classification : String) : SummaryRecord :=
  { symbol := symbol, exchange := exchange, type := classification,
    period := some "day", summary := noNewsText }

/-- The no-valid-summaries fallback record (lines 101-107). -/
def noValidFallback (symbol exchange classification : String) : SummaryRecord :=
  { symbol := symbol, exchange := exchange, type := classification,
    period := some "day", summary := noValidText }

/-- The caught-exception fallback record (lines 113-119). -/
def errorFallback (symbol exchange classification : String) : SummaryRecord :=
  { symbol := symbol, exchange := exchange, type := classification,
    period := some "day", summary := errorText }

/-- The successful aggregate record (line 110), with no `period` key. -/
def successRecord (symbol exchange classification explanation : String) : SummaryRecord :=
  { symbol := symbol, exchange := exchange, type := classification,
    period := none, summary := explanation }

/-- An article that already carries usable cached text. -/
def artCached : Article :=
  { url := none, link := none, full_article_text := some "cached text", condensed_text := none }

/-- An article with no cached text and a non-empty url. -/
def artNoText : Article :=
  { url := some "http-u", link := none, full_article_text := none, condensed_text := none }

/-- The article `artNoText` after an extraction that returned the empty
string. -/
def artNoTextE : Article :=
  { url := some "http-u", link := none, full_article_text := some "",
    condensed_text := none }

/-- An article with usable cached text and a non-empty condensed text, as
left by the NLP batch step. -/
def artCondensed : Article :=
  { url := none, link := none, full_article_text := some "cached text",
    condensed_text := some "condensed" }

/-- An article with no cached text and neither url nor link. -/
def artNoUrl : Article :=
  { url := none, link := none, full_article_text := none, condensed_text := none }

/-- Environment whose NLP batch step is the identity and whose extraction
always succeeds with fixed text. -/
def envIdBatch : Env :=
  { extract_article_text := fun _ => .ok "extracted",
    process_articles_batch := fun arts _ _ => .ok arts,
    summarize_article := fun _ _ _ => .ok "a summary",
    summarize_articles := fun _ _ => .ok "aggregate explanation" }

/-- Environment whose extraction collaborator raises. -/
def envExtractRaises : Env :=
  { extract_article_text := fun _ => .error "boom",
    process_articles_batch := fun arts _ _ => .ok arts,
    summarize_article := fun _ _ _ => .ok "a summary",
    summarize_articles := fun _ _ => .ok "aggregate explanation" }

/-- Environment whose extraction returns the empty string (not the
sentinel) and whose NLP batch step raises, exposing whether the NLP
condenser is reached. -/
def envEmptyExtract : Env :=
  { extract_article_text := fun _ => .ok "",
    process_articles_batch := fun _ _ _ => .error "nlp reached",
    summarize_article := fun _ _ _ => .ok "a summary",
    summarize_articles := fun _ _ => .ok "aggregate explanation" }

/-- Cache-filesystem with one symbol whose extraction will fail and one
whose news list is empty. -/
def fsTwo : String → Option (Except String (List Article)) :=
  fun s => if s = "BAD" then some (.ok [artNoText])
    else if s = "GOOD" then some (.ok []) else none

/-- Cache-filesystem with a six-article symbol and a symbol whose load
fails. -/
def fsMany : String → Option (Except String (List Article)) :=
  fun s =>
    if s = "SIX" then
      some (.ok [artNoUrl, artNoUrl, artNoUrl, artNoUrl, artNoUrl, artNoUrl])
    else if s = "ERR" then some (.error "bad json") else none

/-- A concrete UTC instant, microseconds non-zero. -/
def now1 : UTCDateTime :=
  { year := 2026, month := 10, day := 12, hour := 9, minute := 5,
    second := 30, microsecond := 123456 }

/-- A concrete UTC instant on an exact second (microsecond zero), where
`isoformat` omits the fractional part. -/
def now0 : UTCDateTime :=
  { year := 2026, month := 1, day := 2, hour := 23, minute := 59,
    second := 7, microsecond := 0 }

/-- The record `why_it_moves` produces for symbol `GOOD` (empty news list)
at instant `now0` with change percentage 1. -/
def recGoodBatch : MoverRecord :=
  { symbol := "GOOD", exchange := "NASDAQ", type := "gainer",
    period := some "day", summary := noNewsText,
    daily_change_percentage := 1, date_generated := isoformat now0 }

end NLPStock


namespace NLPStock

/-- Every character emitted by `digitChar` is a decimal digit. -/
theorem isDigitCh_digitChar (n : Nat) : isDigitCh (digitChar n) = true := by
  unfold digitChar
  have h : n % 10 < 10 := Nat.mod_lt _ (by norm_num)
  generalize n % 10 = m at h ⊢
  interval_cases m <;> decide

/-- The rendering of any UTC instant passes the ISO-8601 UTC recognizer. -/
theorem isISO8601UTC_isoformat (t : UTCDateTime) :
    isISO8601UTC (isoformat t) = true := by
  unfold isISO8601UTC isoformat isoformatChars microChars
  by_cases hu : t.microsecond = 0 <;>
    simp [hu, pad4, pad2, pad6, tzChars, checkISO, checkTail, List.all,
      isDigitCh_digitChar]

/-- Every record produced by the try-block body carries the symbol,
exchange and classification arguments. -/
theorem trySummarize_fields (env : Env)
    (symbol exchange classification dir : String) (articles : List Article)
    (r : SummaryRecord)
    (h : trySummarize env symbol exchange classification dir articles = .ok r) :
    r.symbol = symbol ∧ r.exchange = exchange ∧ r.type = classification := by
  unfold trySummarize at h
  split at h
  · exact absurd h (by simp)
  · split at h
    · exact absurd h (by simp)
    · simp only [] at h
      split at h
      · cases h; exact ⟨rfl, rfl, rfl⟩
      · split at h
        · exact absurd h (by simp)
        · cases h; exact ⟨rfl, rfl, rfl⟩

/-- C3: for every rational change percentage, `classify_company` returns
`gainer` when the change is positive and `loser` when it is not; in
particular zero is classified as `loser`. -/
theorem classify_company_sign (c : ℚ) :
    (0 < c → classify_company c = "gainer") ∧
    (c ≤ 0 → classify_company c = "loser") ∧
    classify_company 0 = "loser" := by
  refine ⟨fun h => ?_, fun h => ?_, rfl⟩
  · unfold classify_company; rw [if_pos h]
  · unfold classify_company; rw [if_neg (not_lt.mpr h)]

/-- Concrete instances of `classify_company_sign` at 3, -2 and 0. -/
theorem classify_company_sign_witness :
    classify_company 3 = "gainer" ∧ classify_company (-2) = "loser" ∧
    classify_company 0 = "loser" :=
  ⟨(classify_company_sign 3).1 (by norm_num),
   (classify_company_sign (-2)).2.1 (by norm_num),
   (classify_company_sign 0).2.2⟩

/-- C4: on an empty article list, `process_company_data` returns the fixed
neutral-market fallback record with `period: "day"`, for every environment
(so no collaborator is consulted) and all symbol, exchange and
classification arguments. -/
theorem process_company_data_empty (env : Env)
    (symbol exchange classification : String) :
    process_company_data env symbol exchange [] classification
      = .ok (neutralFallback symbol exchange classification) := rfl

/-- C9: whatever branch produces it, the record returned by
`process_company_data` carries the symbol, exchange and classification
arguments in its `symbol`, `exchange` and `type` keys. -/
theorem process_company_data_fields (env : Env)
    (symbol exchange classification : String) (arts : List Article)
    (r : SummaryRecord)
    (h : process_company_data env symbol exchange arts classification = .ok r) :
    r.symbol = symbol ∧ r.exchange = exchange ∧ r.type = classification := by
  unfold process_company_data at h
  split at h
  · cases h; exact ⟨rfl, rfl, rfl⟩
  · split at h
    · exact absurd h (by simp)
    · split at h
      · cases h; exact ⟨rfl, rfl, rfl⟩
      · simp only [] at h
        split at h
        · cases h
          exact trySummarize_fields env symbol exchange classification
            (direction classification) _ r (by assumption)
        · cases h; exact ⟨rfl, rfl, rfl⟩

/-- Concrete instance of `process_company_data_fields` on the caught-error
branch. -/
theorem process_company_data_fields_witness :
    (errorFallback "AAPL" "NASDAQ" "gainer").symbol = "AAPL" ∧
    (errorFallback "AAPL" "NASDAQ" "gainer").exchange = "NASDAQ" ∧
    (errorFallback "AAPL" "NASDAQ" "gainer").type = "gainer" :=
  process_company_data_fields envEmptyExtract "AAPL" "NASDAQ" "gainer"
    [artNoText] (errorFallback "AAPL" "NASDAQ" "gainer") rfl

/-- C10: an article without usable text whose `url` and `link` keys are both
absent or empty is skipped by the extraction step: for every environment
(so the extraction collaborator is never consulted) the article comes back
unmodified with a usable-text count of zero, and the surrounding loop keeps
it unchanged without adding to the count of the remaining articles. -/
theorem no_url_article_skipped (env : Env) (a : Article)
    (rest arts2 : List Article) (n : Nat)
    (htext : hasUsableText a = false)
    (hurl : a.url = none ∨ a.url = some "")
    (hlink : a.link = none ∨ a.link = some "") :
    processArticleText env a = .ok (a, 0) ∧
    (extractLoop env rest = .ok (arts2, n) →
      extractLoop env (a :: rest) = .ok (a :: arts2, n)) := by
  have hu : getUrl a = "" := by
    rcases hurl with h | h <;> rcases hlink with h2 | h2 <;> simp [getUrl, h, h2]
  constructor
  · simp [processArticleText, htext, hu]
  · intro hrest
    simp [extractLoop, processArticleText, htext, hu, hrest]

/-- Concrete instance of `no_url_article_skipped` on an article with neither
key. -/
theorem no_url_article_skipped_witness :
    processArticleText envIdBatch artNoUrl = .ok (artNoUrl, 0) ∧
    (extractLoop envIdBatch [] = .ok ([], 0) →
      extractLoop envIdBatch [artNoUrl] = .ok ([artNoUrl], 0)) :=
  no_url_article_skipped envIdBatch artNoUrl [] [] 0 (by decide)
    (Or.inl rfl) (Or.inl rfl)

/-- C6: `get_news_articles` never yields more than five articles; a missing
cache file or a failed load yields the empty list rather than an error; a
successful load yields the first five articles when more are cached and the
whole list otherwise. -/
theorem get_news_articles_spec
    (fs : String → Option (Except String (List Article))) (symbol : String) :
    (get_news_articles fs symbol).length ≤ 5 ∧
    (fs symbol = none → get_news_articles fs symbol = []) ∧
    (∀ m, fs symbol = some (.error m) → get_news_articles fs symbol = []) ∧
    (∀ arts, fs symbol = some (.ok arts) → arts.length > 5 →
      get_news_articles fs symbol = arts.take 5) ∧
    (∀ arts, fs symbol = some (.ok arts) → arts.length ≤ 5 →
      get_news_articles fs symbol = arts) := by
  refine ⟨?_, fun h => by simp [get_news_articles, h],
    fun m h => by simp [get_news_articles, h],
    fun arts h hlen => by simp [get_news_articles, h, hlen],
    fun arts h hlen => by simp [get_news_articles, h, not_lt.mpr hlen]⟩
  unfold get_news_articles
  rcases hfs : fs symbol with _ | res
  · simp
  · rcases res with m | arts
    · simp
    · by_cases hlen : arts.length > 5
      · simp [hlen, List.length_take]
      · simp [hlen]; omega

/-- Concrete instances of `get_news_articles_spec`: a six-article cache is
cut to five, a load failure and a missing file give the empty list, and a
short cache is returned whole. -/
theorem get_news_articles_spec_witness :
    get_news_articles fsMany "SIX" =
      [artNoUrl, artNoUrl, artNoUrl, artNoUrl, artNoUrl] ∧
    get_news_articles fsMany "ERR" = [] ∧
    get_news_articles fsMany "OTHER" = [] ∧
    get_news_articles fsTwo "GOOD" = [] :=
  ⟨by
    have h := (get_news_articles_spec fsMany "SIX").2.2.2.1
      [artNoUrl, artNoUrl, artNoUrl, artNoUrl, artNoUrl, artNoUrl] rfl
      (by decide)
    simpa using h,
   (get_news_articles_spec fsMany "ERR").2.2.1 "bad json" rfl,
   (get_news_articles_spec fsMany "OTHER").2.1 rfl,
   (get_news_articles_spec fsTwo "GOOD").2.2.2.2 [] rfl (by decide)⟩

/-- When no article has usable cached text and every attempted extraction
returns exactly the sentinel, the extraction loop counts zero usable
articles. -/
theorem extractLoop_all_sentinel (env : Env) (arts : List Article)
    (h : ∀ a ∈ arts, hasUsableText a = false ∧
      (getUrl a = "" ∨ env.extract_article_text (getUrl a) = .ok sentinel)) :
    ∃ arts2, extractLoop env arts = .ok (arts2, 0) := by
  induction arts with
  | nil => exact ⟨[], rfl⟩
  | cons a rest ih =>
    obtain ⟨ht, hu⟩ := h a (List.mem_cons_self a rest)
    obtain ⟨arts2, h2⟩ := ih (fun b hb => h b (List.mem_cons_of_mem a hb))
    by_cases hge : getUrl a = ""
    · exact ⟨a :: arts2, by simp [extractLoop, processArticleText, ht, hge, h2]⟩
    · have hs : env.extract_article_text (getUrl a) = .ok sentinel :=
        hu.resolve_left hge
      exact ⟨{ a with full_article_text := some sentinel } :: arts2,
        by simp [extractLoop, processArticleText, ht, hge, hs, h2, sentinel]⟩

/-- C5 (amended): on a non-empty article list in which no article has usable
cached text and every article either offers no url/link or has its fresh
extraction return exactly the sentinel, `process_company_data` returns the
neutral-market fallback with `period: "day"`, for every NLP-batch,
per-article-summarizer and aggregate-summarizer collaborator (so none of
them is invoked).  The amendment is forced because a fresh extraction that
returns the empty string is counted as usable by line 59 of the source,
unlike empty cached text; see `empty_extraction_counts_usable`. -/
theorem all_sentinel_neutral_fallback
    (extract : String → Except String String)
    (batch : List Article → String → String → Except String (List Article))
    (sumOne : String → String → String → Except String String)
    (sumAll : List String → String → Except String String)
    (symbol exchange classification : String) (a : Article)
    (rest : List Article)
    (h : ∀ b ∈ a :: rest, hasUsableText b = false ∧
      (getUrl b = "" ∨ extract (getUrl b) = .ok sentinel)) :
    process_company_data ⟨extract, batch, sumOne, sumAll⟩ symbol exchange
      (a :: rest) classification
      = .ok (neutralFallback symbol exchange classification) := by
  obtain ⟨arts2, h2⟩ :=
    extractLoop_all_sentinel ⟨extract, batch, sumOne, sumAll⟩ (a :: rest) h
  simp [process_company_data, h2, neutralFallback]

/-- C5 counterexample: one article with no cached text whose extraction
returns the empty string.  The empty text is not the sentinel, so line 59
counts the article as usable and the pipeline proceeds into the `try`
block, reaching the NLP condenser (here made to raise, so the caught-error
fallback comes back) — not the neutral-market fallback the claim
requires. -/
theorem empty_extraction_counts_usable :
    process_company_data envEmptyExtract "AAPL" "NASDAQ" [artNoText] "gainer"
      = .ok (errorFallback "AAPL" "NASDAQ" "gainer") ∧
    errorFallback "AAPL" "NASDAQ" "gainer"
      ≠ neutralFallback "AAPL" "NASDAQ" "gainer" := by
  exact ⟨rfl, by decide⟩

/-- Concrete instance of `all_sentinel_neutral_fallback`: one article whose
extraction returns the sentinel and one article with no url/link. -/
theorem all_sentinel_neutral_fallback_witness :
    process_company_data
      ⟨fun _ => .ok sentinel, fun _ _ _ => .error "nlp reached",
       fun _ _ _ => .error "summarizer reached",
       fun _ _ => .error "aggregate reached"⟩
      "AAPL" "NASDAQ" [artNoText, artNoUrl] "gainer"
      = .ok (neutralFallback "AAPL" "NASDAQ" "gainer") :=
  all_sentinel_neutral_fallback (fun _ => .ok sentinel)
    (fun _ _ _ => .error "nlp reached")
    (fun _ _ _ => .error "summarizer reached")
    (fun _ _ => .error "aggregate reached")
    "AAPL" "NASDAQ" "gainer" artNoText [artNoUrl]
    (fun b hb => by
      fin_cases hb
      · exact ⟨rfl, Or.inr rfl⟩
      · exact ⟨rfl, Or.inl rfl⟩)

/-- C2 (amended): for a non-empty article list, an exception raised inside
the `try` block (NLP batch condensation, per-article summarization,
aggregate summarization) is always caught and converted to the returned
fallback record whose summary is the generic error-generating-summary
text — and after a successful extraction pass the function returns some
record, never an error — but an exception raised by the per-article
text-extraction step occurs before the `try` block and propagates to the
caller unchanged. -/
theorem try_block_catches (env : Env)
    (symbol exchange classification m m2 : String) (a : Article)
    (rest arts2 : List Article) (n : Nat) :
    (extractLoop env (a :: rest) = .error m →
      process_company_data env symbol exchange (a :: rest) classification
        = .error m) ∧
    (extractLoop env (a :: rest) = .ok (arts2, n + 1) →
      trySummarize env symbol exchange classification
        (direction classification) arts2 = .error m2 →
      process_company_data env symbol exchange (a :: rest) classification
        = .ok (errorFallback symbol exchange classification)) ∧
    (extractLoop env (a :: rest) = .ok (arts2, n) →
      ∃ r, process_company_data env symbol exchange (a :: rest) classification
        = .ok r) := by
  refine ⟨fun h => by simp [process_company_data, h],
    fun h1 h2 => by simp [process_company_data, h1, h2, errorFallback],
    fun h => ?_⟩
  unfold process_company_data
  rw [h]
  by_cases hn : n = 0
  · subst hn; exact ⟨neutralFallback symbol exchange classification,
      by simp [neutralFallback]⟩
  · rcases ht : trySummarize env symbol exchange classification
      (direction classification) arts2 with e | r
    · exact ⟨errorFallback symbol exchange classification,
        by simp [hn, ht, errorFallback]⟩
    · exact ⟨r, by simp [hn, ht]⟩

/-- C2 counterexample: an extraction collaborator that raises on the one
article lacking cached text makes `process_company_data` itself raise —
the exception from the text-extraction step is not converted to the
error-generating-summary fallback. -/
theorem extraction_exception_propagates :
    process_company_data envExtractRaises "AAPL" "NASDAQ" [artNoText] "gainer"
      = .error "boom" := rfl

/-- Concrete instances of `try_block_catches`: the propagating extraction
failure of `envExtractRaises`, and the NLP failure of `envEmptyExtract`
caught and converted to the error-generating-summary fallback record. -/
theorem try_block_catches_witness :
    process_company_data envExtractRaises "AAPL" "NASDAQ" [artNoText] "gainer"
      = .error "boom" ∧
    process_company_data envEmptyExtract "AAPL" "NASDAQ" [artNoText] "gainer"
      = .ok (errorFallback "AAPL" "NASDAQ" "gainer") ∧
    ∃ r, process_company_data envEmptyExtract "AAPL" "NASDAQ" [artNoText]
      "gainer" = .ok r :=
  ⟨(try_block_catches envExtractRaises "AAPL" "NASDAQ" "gainer" "boom" "x"
      artNoText [] [] 0).1 rfl,
   (try_block_catches envEmptyExtract "AAPL" "NASDAQ" "gainer" "x"
      "nlp reached" artNoText [] [artNoTextE] 0).2.1 rfl rfl,
   (try_block_catches envEmptyExtract "AAPL" "NASDAQ" "gainer" "x" "x"
      artNoText [] [artNoTextE] 1).2.2 rfl⟩

/-- C1 (amended): the `period` key is present with value `"day"` on all four
fallback records of `process_company_data` — empty article list, zero
usable-text articles, no valid summaries, and caught exception — and is
absent only on the successful aggregate-summary record.  The branches are
characterized by the outcomes of the extraction loop, the NLP batch step,
the per-article summary loop and the aggregate summarizer. -/
theorem period_on_fallbacks_only (env : Env)
    (symbol exchange classification explanation m : String) (a : Article)
    (rest arts2 processed : List Article) (n : Nat) (ss : List String)
    (r : SummaryRecord) :
    (process_company_data env symbol exchange [] classification
      = .ok (neutralFallback symbol exchange classification)) ∧
    (extractLoop env (a :: rest) = .ok (arts2, 0) →
      process_company_data env symbol exchange (a :: rest) classification
        = .ok (neutralFallback symbol exchange classification)) ∧
    (extractLoop env (a :: rest) = .ok (arts2, n + 1) →
      trySummarize env symbol exchange classification
        (direction classification) arts2 = .error m →
      process_company_data env symbol exchange (a :: rest) classification
        = .ok (errorFallback symbol exchange classification)) ∧
    (extractLoop env (a :: rest) = .ok (arts2, n + 1) →
      trySummarize env symbol exchange classification
        (direction classification) arts2 = .ok r →
      process_company_data env symbol exchange (a :: rest) classification
        = .ok r) ∧
    (env.process_articles_batch arts2 symbol symbol = .ok processed →
      summariesLoop env symbol (direction classification) processed = .ok ss →
      (ss.filter (fun s => s != "")).isEmpty = true →
      trySummarize env symbol exchange classification
        (direction classification) arts2
        = .ok (noValidFallback symbol exchange classification)) ∧
    (env.process_articles_batch arts2 symbol symbol = .ok processed →
      summariesLoop env symbol (direction classification) processed = .ok ss →
      (ss.filter (fun s => s != "")).isEmpty = false →
      env.summarize_articles (ss.filter (fun s => s != "")) symbol
        = .ok explanation →
      trySummarize env symbol exchange classification
        (direction classification) arts2
        = .ok (successRecord symbol exchange classification explanation)) ∧
    (neutralFallback symbol exchange classification).period = some "day" ∧
    (noValidFallback symbol exchange classification).period = some "day" ∧
    (errorFallback symbol exchange classification).period = some "day" ∧
    (successRecord symbol exchange classification explanation).period
      = none := by
  refine ⟨rfl, fun h1 => ?_, fun h1 h2 => ?_, fun h1 h2 => ?_,
    fun h1 h2 h3 => ?_, fun h1 h2 h3 h4 => ?_, rfl, rfl, rfl, rfl⟩
  · simp [process_company_data, h1, neutralFallback]
  · simp [process_company_data, h1, h2, errorFallback]
  · simp [process_company_data, h1, h2]
  · simp [trySummarize, h1, h2, h3, noValidFallback]
  · simp [trySummarize, h1, h2, h3, h4, successRecord]

/-- C1 counterexample: with an identity NLP batch step and an article whose
condensed text is absent, `process_company_data` takes the
no-valid-summaries branch, and the record it returns does carry
`period: "day"` (lines 101-107 of the source include the key), contrary to
the claim that this fallback lacks the `period` key. -/
theorem no_valid_fallback_has_period :
    process_company_data envIdBatch "AAPL" "NASDAQ" [artCached] "gainer"
      = .ok (noValidFallback "AAPL" "NASDAQ" "gainer") ∧
    (noValidFallback "AAPL" "NASDAQ" "gainer").period = some "day" :=
  ⟨rfl, rfl⟩

/-- Concrete instances of every branch of `period_on_fallbacks_only`. -/
theorem period_on_fallbacks_only_witness :
    (process_company_data envIdBatch "AAPL" "NASDAQ" [] "gainer"
      = .ok (neutralFallback "AAPL" "NASDAQ" "gainer")) ∧
    (process_company_data envIdBatch "AAPL" "NASDAQ" [artNoUrl] "gainer"
      = .ok (neutralFallback "AAPL" "NASDAQ" "gainer")) ∧
    (process_company_data envEmptyExtract "AAPL" "NASDAQ" [artNoText] "gainer"
      = .ok (errorFallback "AAPL" "NASDAQ" "gainer")) ∧
    (process_company_data envIdBatch "AAPL" "NASDAQ" [artCached] "gainer"
      = .ok (noValidFallback "AAPL" "NASDAQ" "gainer")) ∧
    (trySummarize envIdBatch "AAPL" "NASDAQ" "gainer" "up" [artCached]
      = .ok (noValidFallback "AAPL" "NASDAQ" "gainer")) ∧
    (trySummarize envIdBatch "AAPL" "NASDAQ" "gainer" "up" [artCondensed]
      = .ok (successRecord "AAPL" "NASDAQ" "gainer" "aggregate explanation")) :=
  ⟨(period_on_fallbacks_only envIdBatch "AAPL" "NASDAQ" "gainer" "x" "m"
      artNoUrl [] [] [] 0 [] (neutralFallback "AAPL" "NASDAQ" "gainer")).1,
   (period_on_fallbacks_only envIdBatch "AAPL" "NASDAQ" "gainer" "x" "m"
      artNoUrl [] [artNoUrl] [] 0 [] (neutralFallback "AAPL" "NASDAQ" "gainer")
      ).2.1 rfl,
   (period_on_fallbacks_only envEmptyExtract "AAPL" "NASDAQ" "gainer" "x"
      "nlp reached" artNoText [] [artNoTextE] [] 0 []
      (neutralFallback "AAPL" "NASDAQ" "gainer")).2.2.1 rfl rfl,
   (period_on_fallbacks_only envIdBatch "AAPL" "NASDAQ" "gainer" "x" "m"
      artCached [] [artCached] [] 0 []
      (noValidFallback "AAPL" "NASDAQ" "gainer")).2.2.2.1 rfl rfl,
   (period_on_fallbacks_only envIdBatch "AAPL" "NASDAQ" "gainer" "x" "m"
      artCached [] [artCached] [artCached] 0 []
      (noValidFallback "AAPL" "NASDAQ" "gainer")).2.2.2.2.1 rfl rfl rfl,
   (period_on_fallbacks_only envIdBatch "AAPL" "NASDAQ" "gainer"
      "aggregate explanation" "m" artCondensed [] [artCondensed]
      [artCondensed] 0 ["a summary"]
      (noValidFallback "AAPL" "NASDAQ" "gainer")).2.2.2.2.2.1 rfl rfl rfl rfl⟩

/-- C7: whenever `why_it_moves` returns a record, that record carries
`daily_change_percentage` equal to the change-percentage argument and a
`date_generated` stamp that is exactly the ISO-8601 rendering of the UTC
clock instant (and so passes the ISO-8601 UTC recognizer), and the record
is persisted to `STOCK_DB/movers/<symbol>_summary.json`. -/
theorem why_it_moves_stamps (env : Env)
    (fs : String → Option (Except String (List Article)))
    (now : UTCDateTime) (symbol exchange : String) (c : ℚ)
    (r : MoverRecord) (p : String)
    (h : why_it_moves env fs now symbol exchange c = .ok (r, p)) :
    r.daily_change_percentage = c ∧
    isISO8601UTC r.date_generated = true ∧
    r.date_generated = isoformat now ∧
    p = outputPath symbol := by
  unfold why_it_moves at h
  simp only [] at h
  split at h
  · exact absurd h (by simp)
  · simp only [Except.ok.injEq, Prod.mk.injEq] at h
    obtain ⟨rfl, rfl⟩ := h
    exact ⟨rfl, isISO8601UTC_isoformat now, rfl, rfl⟩

/-- Concrete instance of `why_it_moves_stamps` for symbol `GOOD` at a
microsecond-free instant with change percentage 1. -/
theorem why_it_moves_stamps_witness :
    recGoodBatch.daily_change_percentage = 1 ∧
    isISO8601UTC recGoodBatch.date_generated = true ∧
    recGoodBatch.date_generated = isoformat now0 ∧
    outputPath "GOOD" = outputPath "GOOD" :=
  why_it_moves_stamps envExtractRaises fsTwo now0 "GOOD" "NASDAQ" 1
    recGoodBatch (outputPath "GOOD") rfl

/-- C8: the batch driver isolates per-file failures: a file whose processing
raises contributes nothing and the loop continues, so any file whose
processing succeeds has its record and output path in the batch result,
regardless of failures elsewhere in the list — and the driver itself is a
total function that never propagates an error. -/
theorem process_all_stocks_isolates (env : Env)
    (fs : String → Option (Except String (List Article)))
    (now : UTCDateTime) (rng : String → ℚ) (files : List String)
    (f : String) (r : MoverRecord) (p : String) :
    (f ∈ files →
      why_it_moves env fs now (symbolOfFile f) "NASDAQ" (rng f) = .ok (r, p) →
      (f, r, p) ∈ process_all_stocks env fs now rng files) ∧
    (∀ m, why_it_moves env fs now (symbolOfFile f) "NASDAQ" (rng f)
        = .error m →
      (f, r, p) ∉ process_all_stocks env fs now rng files) := by
  induction files with
  | nil =>
    exact ⟨fun h => absurd h (List.not_mem_nil f),
      fun m _ h => List.not_mem_nil _ h⟩
  | cons g rest ih =>
    constructor
    · intro hmem hok
      unfold process_all_stocks
      rcases List.mem_cons.mp hmem with rfl | hrest
      · rw [hok]; exact List.mem_cons_self _ _
      · rcases hg : why_it_moves env fs now (symbolOfFile g) "NASDAQ" (rng g)
          with e | ⟨r2, p2⟩
        · exact ih.1 hrest hok
        · exact List.mem_cons_of_mem _ (ih.1 hrest hok)
    · intro m herr hmem
      unfold process_all_stocks at hmem
      rcases hg : why_it_moves env fs now (symbolOfFile g) "NASDAQ" (rng g)
        with e | ⟨r2, p2⟩
      · rw [hg] at hmem
        exact ih.2 m herr hmem
      · rw [hg] at hmem
        rcases List.mem_cons.mp hmem with heq | hrest
        · have hfg : f = g := congrArg (fun q => q.1) heq
          rw [← hfg, herr] at hg
          exact absurd hg (by simp)
        · exact ih.2 m herr hrest

/-- Concrete instance of `process_all_stocks_isolates`: in a batch with one
file whose extraction raises and one valid file, the valid file's summary
is produced and the failing file contributes nothing. -/
theorem process_all_stocks_isolates_witness :
    ("GOOD_news.json", recGoodBatch, outputPath "GOOD") ∈
      process_all_stocks envExtractRaises fsTwo now0 (fun _ => 1)
        ["BAD_news.json", "GOOD_news.json"] ∧
    ("BAD_news.json", recGoodBatch, outputPath "BAD") ∉
      process_all_stocks envExtractRaises fsTwo now0 (fun _ => 1)
        ["BAD_news.json", "GOOD_news.json"] :=
  ⟨(process_all_stocks_isolates envExtractRaises fsTwo now0 (fun _ => 1)
      ["BAD_news.json", "GOOD_news.json"] "GOOD_news.json" recGoodBatch
      (outputPath "GOOD")).1 (by simp) rfl,
   (process_all_stocks_isolates envExtractRaises fsTwo now0 (fun _ => 1)
      ["BAD_news.json", "GOOD_news.json"] "BAD_news.json" recGoodBatch
      (outputPath "BAD")).2 "boom" rfl⟩

end NLPStock
